import Mathlib

/-!
A verification development for the ratchet lazy-tensor execution engine.

Shallow embedding, in Lean 4, of the core of the `ratchet` GPU tensor
library: the tensor/LazyOp graph and its topological scheduler
(`Tensor::execution_order`, `Tensor::resolve`), device transfer
(`Tensor::to`), deep cloning (`Tensor::deep_clone`), the CPU buffer
constructors (`CPUBuffer::from_slice`/`from_bytes`), the `IndexWrite`
operation protocol (`calculate_dispatch`, `storage_bind_group_layout`,
`write_metadata`), and the compute-pipeline pool
(`ComputePipelinePool::get_or_create`).

Rust's machine integers are modelled as `Nat` with explicit `% 2 ^ 32`
where a cast to `u32` occurs; panics are modelled as `none` (or a
dedicated `panicked` constructor) and fallible functions return `Except`.
-/

namespace Ratchet

/-! ## Shape and strides

`Shape`, `Strides` and their helpers live in `ratchet-core/src/shape.rs`
and `strides.rs`, which are not part of the sources under review; the
definitions below are modelled from the spec. -/

/-- Modelled from the spec: a `Shape` is an ordered sequence of
non-negative integers (`shape.rs` is not among the reviewed sources). -/
abbrev Shape := List Nat

/-- Modelled from the spec: `numel` is the product of the dimensions. -/
def Shape.numel (s : Shape) : Nat := s.prod

/-- Modelled from the spec: `left_pad_to(fill, target_rank)` pads the
shape on the left with `fill` up to the target rank. -/
def Shape.leftPadTo (s : Shape) (fill : Nat) (targetRank : Nat) : Shape :=
  List.replicate (targetRank - s.length) fill ++ s

/-- Modelled from the spec: canonical row-major strides,
`stride[i] = product of shape[i+1..]` (`strides.rs` is not among the
reviewed sources). -/
def stridesFrom : Shape → List Nat
  | [] => []
  | _ :: t => t.prod :: stridesFrom t

/-! ## Data model: dtype, device, storage view, tensors

From `ratchet-core/src/tensor.rs`: a tensor is an identity
`(id, op, view, device)`; the storage slot is mutable state and is
modelled separately (`StorageState` below). -/

/-- Element dtype (spec §3: `{F32=4, I32=4, U32=4, F16=2}`). -/
inductive DType where
  | f32 | i32 | u32 | f16
deriving DecidableEq, Repr

/-- Byte size of a dtype. -/
def DType.size_of : DType → Nat
  | .f32 => 4 | .i32 => 4 | .u32 => 4 | .f16 => 2

/-- A device is CPU or a GPU identified by an opaque handle
(`Device::{CPU, GPU(WgpuDevice)}`). -/
inductive Device where
  | cpu
  | gpu (handle : Nat)
deriving DecidableEq, Repr

def Device.is_cpu : Device → Bool
  | .cpu => true
  | .gpu _ => false

def Device.is_gpu : Device → Bool
  | .cpu => false
  | .gpu _ => true

/-- Embeds `StorageView { shape, dt, strides }` from `tensor.rs`. Strides may
diverge from the canonical ones when views/permutes exist. -/
structure StorageView where
  shape : Shape
  dt : DType
  strides : List Nat
deriving DecidableEq, Repr

/-- The binary op kind carried by `LazyOp::Binary`. -/
inductive BinaryOp where
  | add | sub | mul | div
deriving DecidableEq, Repr

mutual
/-- Embeds `LazyOp` from `tensor.rs`: `Const` is terminal; `Binary` and
`Matmul` carry their operand tensors by value. (The remaining variants
are `unimplemented!()` in `execution_order`/`compile` and are omitted.) -/
inductive LazyOp where
  | const : LazyOp
  | binary (lhs rhs : Tensor) (op : BinaryOp) : LazyOp
  | matmul (lhs rhs : Tensor) : LazyOp

/-- A tensor node: process-unique `id`, its `LazyOp`, its `StorageView`
and its device. Two tensors are equal iff their ids match
(`PartialEq for Tensor`). -/
inductive Tensor where
  | mk (id : Nat) (op : LazyOp) (view : StorageView) (device : Device) : Tensor
end

def Tensor.id : Tensor → Nat
  | .mk i _ _ _ => i

def Tensor.op : Tensor → LazyOp
  | .mk _ o _ _ => o

def Tensor.view : Tensor → StorageView
  | .mk _ _ v _ => v

def Tensor.device : Tensor → Device
  | .mk _ _ _ d => d

def Tensor.shape (t : Tensor) : Shape := t.view.shape

/-- Embeds `srcs()` of a lazy op, in source order
(`Binary::srcs` returns `[lhs, rhs]`, `Matmul::srcs` likewise). -/
def LazyOp.srcs : LazyOp → List Tensor
  | .const => []
  | .binary a b _ => [a, b]
  | .matmul a b => [a, b]

/-! ## Workgroup counts and the IndexWrite operation
(`ratchet-core/src/ops/index_write.rs`) -/

/-- Modelled from the spec: `WorkgroupCount::MAX_WGS_PER_DIM`, the
WebGPU per-dimension workgroup-count limit (the `WorkgroupCount` type
lives in `ratchet-core/src/gpu`, not among the reviewed sources). -/
def MAX_WGS_PER_DIM : Nat := 65535

/-- Modelled from the spec: `WorkgroupCount::div_ceil`, ceiling
division. -/
def divCeil (num den : Nat) : Nat := (num + den - 1) / den

/-- A workgroup count `(x, y, z)` as produced by `wgc![x, y, z]`. -/
structure WorkgroupCount where
  x : Nat
  y : Nat
  z : Nat
deriving DecidableEq, Repr

/-- Embeds `IndexWrite { dst, src, write_start }` from `index_write.rs`. -/
structure IndexWrite where
  dst : Tensor
  src : Tensor
  write_start : List Nat

/-- Embeds `IndexWrite::calculate_dispatch`: note that the source computes the
element count from `self.src` and ignores the `dst` argument. -/
def IndexWrite.calculate_dispatch (op : IndexWrite) (_dst : Tensor) : WorkgroupCount :=
  let numel := op.src.shape.numel
  let x_groups := divCeil numel 64
  let (x_groups, y_groups) :=
    if x_groups > MAX_WGS_PER_DIM then
      let y_groups := divCeil x_groups MAX_WGS_PER_DIM
      (MAX_WGS_PER_DIM, y_groups)
    else
      (x_groups, 1)
  ⟨x_groups, y_groups, 1⟩

/-- The dispatch the spec describes: computed from `dst.numel` where
`dst` is the destination tensor argument of the dispatch (spec §4.6:
"`calculate_dispatch(dst)` → workgroup counts `(x, y, 1)` computed from
`ceil(dst.numel / 64)`"). Stated for comparison with
`IndexWrite.calculate_dispatch`. -/
def specDispatch (dst : Tensor) : WorkgroupCount :=
  let total_groups := divCeil dst.shape.numel 64
  if total_groups > MAX_WGS_PER_DIM then
    ⟨MAX_WGS_PER_DIM, divCeil total_groups MAX_WGS_PER_DIM, 1⟩
  else
    ⟨total_groups, 1, 1⟩

/-- Bind-group layout descriptors (the closed set from spec §6; the
`BindGroupLayoutDescriptor` constructors live in the gpu module, not
among the reviewed sources). -/
inductive BindGroupLayoutDescriptor where
  | unary | unaryInplace | binary | binaryInplace | ternary
deriving DecidableEq, Repr

/-- Result of an operation-protocol call that may panic (`panic!`) or
return a typed `OperationError`. -/
inductive OpResult (α : Type) where
  | ok (a : α) : OpResult α
  | typedError (msg : String) : OpResult α
  | panicked (msg : String) : OpResult α
deriving DecidableEq, Repr

/-- Embeds `IndexWrite::storage_bind_group_layout`: panics unless `inplace`,
else returns the `binary_inplace` layout. -/
def IndexWrite.storage_bind_group_layout (_op : IndexWrite) (inplace : Bool) :
    OpResult BindGroupLayoutDescriptor :=
  if !inplace then
    .panicked "IndexWrite only supports inplace operation"
  else
    .ok .binaryInplace

/-! ## IndexWrite uniform metadata (`IndexWrite::write_metadata`) -/

/-- A `glam::UVec4`: four unsigned 32-bit lanes, modelled as naturals
reduced mod `2 ^ 32`. -/
structure UVec4 where
  x : Nat
  y : Nat
  z : Nat
  w : Nat
deriving DecidableEq, Repr

def UVec4.toList (v : UVec4) : List Nat := [v.x, v.y, v.z, v.w]

/-- Modelled from the spec: `glam::UVec4::from(&Strides)` takes the
four stride entries as `u32` lanes (each cast truncating mod `2^32`). -/
def uvec4OfList (l : List Nat) : UVec4 :=
  match l with
  | [a, b, c, d] => ⟨a % 2 ^ 32, b % 2 ^ 32, c % 2 ^ 32, d % 2 ^ 32⟩
  | _ => ⟨0, 0, 0, 0⟩

/-- Embeds `IndexWriteMeta { dst_strides, src_numel, write_start }`. -/
structure IndexWriteMeta where
  dst_strides : UVec4
  src_numel : Nat
  write_start : UVec4
deriving DecidableEq, Repr

/-- Embeds `IndexWrite::write_metadata`, the record it packs: the `padder`
closure left-pads a shape to rank 4 with 1s and derives canonical
strides *from the padded shape*; `write_start` is right-aligned into 4
`u32` lanes with leading zeros; `src_numel` is the padded source
shape's element count as `u32`. -/
def IndexWrite.metaRecord (op : IndexWrite) : IndexWriteMeta :=
  let padder := fun (shape : Shape) =>
    let shape := shape.leftPadTo 1 4
    let strides := stridesFrom shape
    (shape, strides)
  let dst_strides := (padder op.dst.shape).2
  let src_shape := (padder op.src.shape).1
  let offset := 4 - op.write_start.length
  let start := (List.range 4).map fun i =>
    if h : i ≥ offset ∧ i - offset < op.write_start.length then
      op.write_start.get ⟨i - offset, h.2⟩ % 2 ^ 32
    else 0
  { dst_strides := uvec4OfList dst_strides
    src_numel := src_shape.numel % 2 ^ 32
    write_start := uvec4OfList start }

/-- The CPU-side uniform staging arena, as a list of packed IndexWrite
records; `uniform.write(&meta)` appends and returns the record's
offset (modelled as its index). -/
def writeMetadata (uniform : List IndexWriteMeta) (op : IndexWrite) :
    List IndexWriteMeta × Nat :=
  (uniform ++ [op.metaRecord], uniform.length)

/-! ## CPU buffers (`ratchet-core/src/storage/cpu_buffer.rs`)

A buffer is byte-addressable; bytes are modelled as naturals `< 256`
(their numeric value). `RawCPUBuffer::uninitialized` + copy means a
constructed buffer is exactly its source bytes. -/

/-- A managed CPU buffer: its bytes and the alignment of its layout. -/
structure CPUBuffer where
  bytes : List Nat
  alignment : Nat
deriving DecidableEq, Repr

/-- Embeds `CPUBuffer::from_bytes(bytes, alignment)`: allocates
`RawCPUBuffer::uninitialized(bytes.len(), alignment)` and copies
`bytes` into it. -/
def CPUBuffer.from_bytes (bs : List Nat) (alignment : Nat) : CPUBuffer :=
  ⟨bs, alignment⟩

/-- Embeds `CPUBuffer::deep_clone`: clones the raw buffer (fresh allocation,
bytes copied), never fails. -/
def CPUBuffer.deep_clone (b : CPUBuffer) : CPUBuffer :=
  ⟨b.bytes, b.alignment⟩

/-- An element type `T: NoUninit` for `from_slice<T>`: its byte size,
alignment, and byte representation (`bytemuck::cast_slice` concatenates
the per-element bytes). -/
structure ElemType (α : Type) where
  size : Nat
  align : Nat
  toBytes : α → List Nat
  toBytes_length : ∀ a, (toBytes a).length = size

/-- The byte representation of a slice: `bytemuck::cast_slice` yields
the concatenation of the elements' bytes. -/
def byteRepr {α : Type} (et : ElemType α) (data : List α) : List Nat :=
  (data.map et.toBytes).flatten

/-- Embeds `CPUBuffer::from_slice(data, shape)`: asserts
`data.len() == shape.numel()` (panic modelled as `none`), then builds
the buffer from the cast bytes with `align_of::<T>()`. -/
def CPUBuffer.from_slice {α : Type} (et : ElemType α) (data : List α) (shape : Shape) :
    Option CPUBuffer :=
  if data.length = shape.numel then
    some (CPUBuffer.from_bytes (byteRepr et data) et.align)
  else
    none

/-! ## Execution order (`Tensor::execution_order`)

The source runs a stack loop: pop a tensor; if already visited skip;
otherwise push its sources (`sources[0]` then `sources[1]`, so
`sources[1]` is popped first) and append the tensor to `visited`; at the
end `visited` is reversed. The loop is embedded with explicit fuel (each
iteration consumes one unit); the fuel argument is threaded so that
concrete runs can be evaluated. -/

/-- One specimen of `visited.contains(&tensor)`: tensor equality is by
id (`PartialEq for Tensor`). -/
def containsTensor (visited : List Tensor) (t : Tensor) : Bool :=
  visited.any fun v => v.id = t.id

/-- The stack loop of `execution_order`. The stack's head is its top;
pushing `sources[0]` then `sources[1]` leaves `sources[1]` on top. -/
def executionOrderGo : Nat → List Tensor → List Tensor → List Tensor
  | 0, _, visited => visited
  | _ + 1, [], visited => visited
  | fuel + 1, t :: stack, visited =>
    if containsTensor visited t then
      executionOrderGo fuel stack visited
    else
      executionOrderGo fuel ((t.op.srcs).reverse ++ stack) (visited ++ [t])

/-- Embeds `Tensor::execution_order` with the given fuel: run the loop from
`stack = [self]`, `visited = []`, then reverse. -/
def executionOrderFuel (fuel : Nat) (root : Tensor) : List Tensor :=
  (executionOrderGo fuel [root] []).reverse

/-- Embeds `Tensor::execution_order`: the loop runs until the stack empties;
1000 units of fuel strictly exceed the iteration count for every graph
considered in this development. -/
def Tensor.execution_order (root : Tensor) : List Tensor :=
  executionOrderFuel 1000 root

/-! ## Storage, storage state and `Tensor::resolve`

A tensor's storage slot (`Arc<RwLock<Option<Storage>>>`) is mutable
state keyed by the tensor's id; the whole store is modelled as a
function from ids to optional storage. -/

/-- Embeds `Storage::{CPU(CPUBuffer), GPU(GPUBuffer)}`; a GPU buffer is its
byte content plus its alignment (`GPUBuffer { inner, alignment }`). -/
inductive Storage where
  | cpu (buf : CPUBuffer)
  | gpu (bytes : List Nat) (alignment : Nat)
deriving DecidableEq, Repr

/-- The bytes held by a storage. -/
def Storage.bytes : Storage → List Nat
  | .cpu buf => buf.bytes
  | .gpu b _ => b

/-- Embeds `Storage::deep_clone`: the CPU arm is `CPUBuffer::deep_clone`
(fresh raw buffer, bytes copied); the GPU arm is modelled from the
spec ("`deep_clone` allocates a fresh buffer and copies bytes",
`storage.rs` is not among the reviewed sources). -/
def Storage.deep_clone : Storage → Storage
  | .cpu buf => .cpu buf.deep_clone
  | .gpu bytes alignment => .gpu bytes alignment

/-- The storage slots of all tensors, keyed by tensor id. -/
def StorageState := Nat → Option Storage

/-- Writing one tensor's storage slot (`Tensor::update_storage`). -/
def updateState (s : StorageState) (i : Nat) (st : Storage) : StorageState :=
  fun j => if j = i then some st else s j

/-- Embeds `Tensor::resolved()`: the storage slot is populated. -/
def Tensor.resolvedIn (t : Tensor) (s : StorageState) : Bool :=
  (s t.id).isSome

/-- Embeds `TensorError` from `tensor.rs`. -/
inductive TensorError where
  | notResolved
  | noStorage (id : Nat)
  | deviceError
  | transferError
  | operationError
deriving DecidableEq, Repr

/-- The per-node body of the `resolve` loop: an unresolved node takes
the planner's pooled buffer (`allocations.get(&id).ok_or(NoStorage)`;
missing allocation is a typed error, and `assert!(t.device().is_gpu())`
is a panic) and its slot is written with
`Storage::GPU { inner, alignment: t.dt().size_of() }`; a resolved node
is untouched. Returns the new state and whether the slot was written. -/
def resolveNode (alloc : Nat → Option (List Nat)) (s : StorageState) (t : Tensor) :
    OpResult (StorageState × Bool) :=
  if t.resolvedIn s then .ok (s, false)
  else
    match alloc t.id with
    | none => .typedError "NoStorage"
    | some bytes =>
      if !t.device.is_gpu then .panicked "assertion failed: t.device().is_gpu()"
      else .ok (updateState s t.id (.gpu bytes t.view.dt.size_of), true)

/-- Embeds `Tensor::compile` produces a `CompiledOp` for every non-`Const`
node and `None` for `Const`. (The per-op `compile` bodies live outside
the reviewed sources; per the spec §4.10 each non-Const node yields one
`CompiledOp`, so compilation success is modelled from the spec.) -/
def compilesToOp (t : Tensor) : Bool :=
  match t.op with
  | .const => false
  | _ => true

/-- The `for t in execution_order` loop of `resolve`: threads the
storage state, records which ids were written, and counts the
`CompiledOp`s pushed (the count of dispatches the executable will
encode). Note the source calls `t.compile` for *every* node of the
order, resolved or not. -/
def resolveFold (alloc : Nat → Option (List Nat)) :
    List Tensor → StorageState → List Nat → Nat →
    OpResult (StorageState × List Nat × Nat)
  | [], s, writes, count => .ok (s, writes, count)
  | t :: rest, s, writes, count =>
    match resolveNode alloc s t with
    | .ok (s', wrote) =>
      let writes' := if wrote then writes ++ [t.id] else writes
      let count' := count + (if compilesToOp t then 1 else 0)
      resolveFold alloc rest s' writes' count'
    | .typedError m => .typedError m
    | .panicked m => .panicked m

/-- Embeds `Tensor::resolve`: requires a GPU device (`self.device().try_gpu()?`
is a typed error on CPU), walks `execution_order`, and dispatches the
compiled ops. The observables are the final storage state, the list of
ids whose slot was written, and the number of compiled (and hence
dispatched) ops. -/
def Tensor.resolve (alloc : Nat → Option (List Nat)) (s : StorageState) (root : Tensor) :
    OpResult (StorageState × List Nat × Nat) :=
  match root.device with
  | .cpu => .typedError "DeviceError: no GPU device"
  | .gpu _ => resolveFold alloc root.execution_order s [] 0

/-! ## Device transfer (`Tensor::to`) and `Tensor::deep_clone`

`Tensor::new` allocates a fresh `TensorId`; the embedding passes the
fresh id explicitly. `GPUBuffer::to_cpu` (staged readback) and
`CPUBuffer::to_device` (upload) preserve the byte content; their bodies
live outside the reviewed sources and are modelled from the spec
(§4.3). -/

/-- Embeds `Tensor::to_cpu`: identity when already on CPU or unresolved;
otherwise requires GPU storage (`try_gpu` is a typed error on a CPU
buffer), reads it back, and returns a fresh `Const` tensor on the CPU
device with the same view. -/
def Tensor.to_cpu (t : Tensor) (s : StorageState) (freshId : Nat) :
    Except TensorError (Tensor × StorageState) :=
  if t.device.is_cpu || !t.resolvedIn s then .ok (t, s)
  else
    match s t.id with
    | none => .error .transferError
    | some (.cpu _) => .error .deviceError
    | some (.gpu bytes alignment) =>
      let t' := Tensor.mk freshId .const t.view .cpu
      .ok (t', updateState s freshId (.cpu ⟨bytes, alignment⟩))

/-- Embeds `Tensor::to_gpu`: identity when already on GPU or unresolved;
otherwise requires CPU storage, uploads it, and returns a fresh `Const`
tensor on the destination GPU device with the same view
(`dst_device.try_gpu()?` is a typed error when the destination is not a
GPU). -/
def Tensor.to_gpu (t : Tensor) (dstDevice : Device) (s : StorageState) (freshId : Nat) :
    Except TensorError (Tensor × StorageState) :=
  if t.device.is_gpu || !t.resolvedIn s then .ok (t, s)
  else
    match s t.id with
    | none => .error .transferError
    | some (.gpu _ _) => .error .deviceError
    | some (.cpu buf) =>
      match dstDevice with
      | .cpu => .error .deviceError
      | .gpu h =>
        let t' := Tensor.mk freshId .const t.view (.gpu h)
        .ok (t', updateState s freshId (.gpu buf.bytes buf.alignment))

/-- Embeds `Tensor::to(device)`: dispatch on the `(self.device(), &device)`
pair; every pair other than GPU→CPU and CPU→GPU returns the tensor
as-is. -/
def Tensor.to (t : Tensor) (device : Device) (s : StorageState) (freshId : Nat) :
    Except TensorError (Tensor × StorageState) :=
  match t.device, device with
  | .gpu _, .cpu => t.to_cpu s freshId
  | .cpu, .gpu _ => t.to_gpu device s freshId
  | _, _ => .ok (t, s)

/-- Embeds `Tensor::deep_clone`: `self.storage().as_ref().unwrap()` panics on
an unresolved tensor (modelled as `none`); otherwise a fresh `Const`
tensor on the same device with the same view gets a deep-cloned
storage. -/
def Tensor.deep_clone (t : Tensor) (s : StorageState) (freshId : Nat) :
    Option (Tensor × StorageState) :=
  match s t.id with
  | none => none
  | some st =>
    let cloned := st.deep_clone
    some (Tensor.mk freshId .const t.view t.device, updateState s freshId cloned)

/-! ## The compute-pipeline pool
(`ratchet/src/gpu/pools/pipeline_pool.rs`) -/

/-- Embeds `KernelElement` from `pipeline_pool.rs`. -/
inductive KernelElement where
  | vec4 | vec2 | scalar
deriving DecidableEq, Repr

/-- Embeds `From<&KernelElement> for u32`. -/
def KernelElement.toU32 : KernelElement → Nat
  | .vec4 => 4
  | .vec2 => 2
  | .scalar => 1

/-- Embeds `ComputePipelineDescriptor { pipeline_layout, kernel_key, elem }`. -/
structure ComputePipelineDescriptor where
  pipeline_layout : Nat
  kernel_key : String
  elem : KernelElement
deriving DecidableEq, Repr

/-- A created compute pipeline: its label, whether its shader module
was compiled with validation (`create_shader_module` vs the unchecked
variant), and its entry point. -/
structure ComputePipeline where
  label : Option String
  checkedModule : Bool
  entry_point : String
deriving DecidableEq, Repr

/-- Modelled from the spec: `StaticResourcePool`, the generic keyed
cache `descriptor → handle` (`static_resource_pool.rs` is not among
the reviewed sources): `get_or_create(desc, factory)` returns an
existing handle or invokes the factory and stores the result. Handles
are slotmap keys, modelled as indices into the resource list. -/
structure StaticResourcePool (κ ρ : Type) where
  lookup : List (κ × Nat)
  resources : List ρ

/-- Embeds `StaticResourcePool::get_or_create`: returns the handle, the new
pool, and whether the factory was invoked. -/
def StaticResourcePool.getOrCreate {κ ρ : Type} [DecidableEq κ]
    (pool : StaticResourcePool κ ρ) (desc : κ) (factory : κ → ρ) :
    Nat × StaticResourcePool κ ρ × Bool :=
  match pool.lookup.find? (fun e => e.1 = desc) with
  | some e => (e.2, pool, false)
  | none =>
    let h := pool.resources.length
    (h, ⟨pool.lookup ++ [(desc, h)], pool.resources ++ [factory desc]⟩, true)

/-- The process environment, for `std::env::var`: a lookup from
variable name to its (unicode) value when present. -/
def Env := String → Option String

/-- The factory closure of `ComputePipelinePool::get_or_create`: the
module is compiled checked exactly when
`std::env::var("RATCHET_CHECKED").is_ok()`, the label is the kernel
key, and the entry point is `"main"`. -/
def pipelineFactory (env : Env) (desc : ComputePipelineDescriptor) : ComputePipeline :=
  let label := some desc.kernel_key
  if (env "RATCHET_CHECKED").isSome then
    { label := label, checkedModule := true, entry_point := "main" }
  else
    { label := label, checkedModule := false, entry_point := "main" }

/-- Embeds `ComputePipelinePool`: it wraps a `StaticResourcePool` keyed
by `ComputePipelineDescriptor`. -/
def ComputePipelinePool := StaticResourcePool ComputePipelineDescriptor ComputePipeline

/-- Embeds `ComputePipelinePool::get_or_create`. -/
def ComputePipelinePool.get_or_create (env : Env) (pool : ComputePipelinePool)
    (desc : ComputePipelineDescriptor) : Nat × ComputePipelinePool × Bool :=
  StaticResourcePool.getOrCreate pool desc (pipelineFactory env)

/-! ## Concrete fixtures used by the theorems below -/

/-- A 1-element storage view used where the view is irrelevant. -/
def exView : StorageView := ⟨[1], .f32, [1]⟩

/-- The GPU device used by the fixtures. -/
def exGpu : Device := .gpu 0

/-- Diamond graph leaf: const with id 0. -/
def exL1 : Tensor := .mk 0 .const exView exGpu

/-- Diamond graph leaf: const with id 1. -/
def exL2 : Tensor := .mk 1 .const exView exGpu

/-- Diamond graph shared node `x = l1 + l2` (id 2), consumed by both
`p` and `q`. -/
def exX : Tensor := .mk 2 (.binary exL1 exL2 .add) exView exGpu

/-- Diamond graph consumer `p = x + l1` (id 3). -/
def exP : Tensor := .mk 3 (.binary exX exL1 .add) exView exGpu

/-- Diamond graph consumer `q = x + l2` (id 4). -/
def exQ : Tensor := .mk 4 (.binary exX exL2 .add) exView exGpu

/-- Diamond graph root `r = p + q` (id 5): the shared node `x` feeds
the two distinct consumers `p` and `q`. -/
def exRoot : Tensor := .mk 5 (.binary exP exQ .add) exView exGpu

/-- Const leaf (id 10) for the resolve fixtures. -/
def exA : Tensor := .mk 10 .const exView exGpu

/-- Const leaf (id 11) for the resolve fixtures. -/
def exB : Tensor := .mk 11 .const exView exGpu

/-- The single non-Const node `a + b` (id 12) for the resolve
fixtures. -/
def exSum : Tensor := .mk 12 (.binary exA exB .add) exView exGpu

/-- Initial storage state for the resolve fixtures: the two consts have
storage at construction, the sum is unresolved. -/
def exState0 : StorageState := fun i =>
  if i = 10 ∨ i = 11 then some (.gpu [0, 0, 0, 0] 4) else none

/-- The allocation planner for the resolve fixtures: every id gets a
pooled buffer. -/
def exAlloc : Nat → Option (List Nat) := fun _ => some [0, 0, 0, 0]

/-- The storage state after the first `resolve` of `exSum`. -/
def exState1 : StorageState :=
  match Tensor.resolve exAlloc exState0 exSum with
  | .ok (s, _, _) => s
  | _ => exState0

/-- IndexWrite fixture: destination tensor of shape `[128, 64]`
(8192 elements, canonical strides). -/
def exIwDst : Tensor := .mk 20 .const ⟨[128, 64], .f32, [64, 1]⟩ exGpu

/-- IndexWrite fixture: source tensor of shape `[1, 64]`
(64 elements). -/
def exIwSrc : Tensor := .mk 21 .const ⟨[1, 64], .f32, [64, 1]⟩ exGpu

/-- IndexWrite fixture: the destination (output) tensor of the
dispatch, whose view is the destination's view (8192 elements). -/
def exIwOut : Tensor := .mk 22 (.binary exIwDst exIwSrc .add) ⟨[128, 64], .f32, [64, 1]⟩ exGpu

/-- The IndexWrite node writing a 64-element source into an
8192-element destination. -/
def exIw : IndexWrite := ⟨exIwDst, exIwSrc, [2, 0]⟩

/-- An IndexWrite whose source is large enough to overflow one
workgroup dimension: `65536 * 64` elements. -/
def exIwBig : IndexWrite :=
  ⟨.mk 25 .const ⟨[65536, 64], .f32, [64, 1]⟩ exGpu,
   .mk 26 .const ⟨[65536, 64], .f32, [64, 1]⟩ exGpu,
   [0, 0]⟩

/-- IndexWrite fixture with a destination whose view strides `[1, 3]`
are non-canonical for its shape `[3, 2]` (a permuted view). -/
def exIwNcDst : Tensor := .mk 30 .const ⟨[3, 2], .f32, [1, 3]⟩ exGpu

/-- The IndexWrite node with the non-canonically-strided
destination. -/
def exIwNc : IndexWrite :=
  ⟨exIwNcDst, .mk 31 .const ⟨[1, 2], .f32, [2, 1]⟩ exGpu, [2, 0]⟩

/-! ## Theorems -/

/-- C9: a caller contract violation in bind-group-layout selection is a
panic, not a typed error: for every IndexWrite node,
`storage_bind_group_layout(inplace=false)` panics, while
`storage_bind_group_layout(inplace=true)` returns the `binary_inplace`
layout without error. -/
theorem index_write_layout_panics_unless_inplace (iw : IndexWrite) :
    iw.storage_bind_group_layout false =
      .panicked "IndexWrite only supports inplace operation"
  ∧ iw.storage_bind_group_layout true = .ok .binaryInplace :=
  ⟨rfl, rfl⟩

/-- C1 (refuting evaluation): on the diamond graph where node `x`
(id 2) is a source of the two distinct consumers `p` (id 3) and `q`
(id 4), `execution_order` returns ids `[3, 0, 2, 1, 4, 5]`: each
reachable node appears exactly once, but the consumer `p` sits at index
0 while its source `x` sits at index 2, so a source does *not* appear
strictly earlier than its consumer. -/
theorem execution_order_breaks_source_before_consumer :
    (exRoot.execution_order).map Tensor.id = [3, 0, 2, 1, 4, 5]
  ∧ ((exRoot.execution_order).map Tensor.id).Nodup
  ∧ exX.id ∈ (exP.op.srcs).map Tensor.id
  ∧ ((exRoot.execution_order).map Tensor.id).indexOf exP.id <
      ((exRoot.execution_order).map Tensor.id).indexOf exX.id := by
  refine ⟨rfl, by decide, by decide, by decide⟩

/-- C3 (counterexample): for the IndexWrite node writing a 64-element
source into an 8192-element destination, the source computes
`ceil(64 / 64) = 1` workgroup from the *source* element count, while
the claim's formula over the destination tensor of the dispatch yields
`ceil(8192 / 64) = 128`. -/
theorem calculate_dispatch_ignores_dst_cx :
    exIw.calculate_dispatch exIwOut = ⟨1, 1, 1⟩
  ∧ specDispatch exIwOut = ⟨128, 1, 1⟩
  ∧ exIw.calculate_dispatch exIwOut ≠ specDispatch exIwOut := by
  refine ⟨rfl, rfl, by decide⟩

/-- C3 (amended): `IndexWrite::calculate_dispatch` returns `(x, y, 1)`
computed from `ceil(src.numel / 64)` where `src` is the node's *source*
tensor: `x = ceil(src.numel / 64)` with `y = 1` when that count is at
most `MAX_WGS_PER_DIM`, otherwise `x = MAX_WGS_PER_DIM` and
`y = ceil(total_groups / MAX_WGS_PER_DIM)`; the destination argument
has no influence on the result. -/
theorem calculate_dispatch_src_numel (op : IndexWrite) (dst : Tensor) :
    (divCeil op.src.shape.numel 64 ≤ MAX_WGS_PER_DIM →
      op.calculate_dispatch dst = ⟨divCeil op.src.shape.numel 64, 1, 1⟩)
  ∧ (MAX_WGS_PER_DIM < divCeil op.src.shape.numel 64 →
      op.calculate_dispatch dst =
        ⟨MAX_WGS_PER_DIM,
         divCeil (divCeil op.src.shape.numel 64) MAX_WGS_PER_DIM, 1⟩)
  ∧ (∀ dst2, op.calculate_dispatch dst = op.calculate_dispatch dst2) := by
  refine ⟨fun h => ?_, fun h => ?_, fun dst2 => rfl⟩
  · simp only [IndexWrite.calculate_dispatch]
    rw [if_neg (by omega)]
  · simp only [IndexWrite.calculate_dispatch]
    rw [if_pos (by omega)]

/-- C3 (witness): the amended dispatch formula evaluated on concrete
inputs, exercising both the small branch (64 elements, one workgroup)
and the wrapped branch (65536·64 elements, `(65535, 2, 1)`). -/
theorem calculate_dispatch_src_numel_witness :
    exIw.calculate_dispatch exIwOut = ⟨1, 1, 1⟩
  ∧ exIwBig.calculate_dispatch exIwOut = ⟨65535, 2, 1⟩ := by
  refine ⟨(calculate_dispatch_src_numel exIw exIwOut).1 (by decide), ?_⟩
  have h := (calculate_dispatch_src_numel exIwBig exIwOut).2.1 (by decide)
  simpa using h

/-- Left-padding a shape with 1s preserves the element count. -/
theorem numel_leftPadTo (s : Shape) (r : Nat) :
    (s.leftPadTo 1 r).numel = s.numel := by
  simp [Shape.leftPadTo, Shape.numel, List.prod_replicate]

/-- Canonical strides of a shape left-padded with 1s: the padding
contributes the original element count in each leading lane and the
original canonical strides in the trailing lanes. -/
theorem stridesFrom_replicate_one_append (k : Nat) (s : Shape) :
    stridesFrom (List.replicate k 1 ++ s) =
      List.replicate k s.prod ++ stridesFrom s := by
  induction k with
  | zero => rfl
  | succ n ih =>
    simp only [List.replicate_succ, List.cons_append, stridesFrom, ih,
      List.append_eq, List.prod_append, List.prod_replicate, one_pow, one_mul]

/-- The length of the canonical strides equals the rank. -/
theorem length_stridesFrom (s : Shape) : (stridesFrom s).length = s.length := by
  induction s with
  | nil => rfl
  | cons a t ih => simp [stridesFrom, ih]

/-- Evaluating `uvec4OfList` on a list of length exactly 4. -/
theorem uvec4OfList_toList (l : List Nat) (h : l.length = 4) :
    (uvec4OfList l).toList = l.map (· % 2 ^ 32) := by
  match l, h with
  | [a, b, c, d], _ => rfl

/-- C4 (counterexample): for an IndexWrite whose destination view has
the non-canonical strides `[1, 3]` (shape `[3, 2]`), the packed
`dst_strides` lanes are `(6, 6, 2, 1)` — canonical strides recomputed
from the padded shape — so their trailing lanes `[2, 1]` differ from
the destination tensor's strides `[1, 3]`; no left-padding of the
tensor's strides to rank 4 can produce the packed lanes. -/
theorem write_metadata_ignores_view_strides_cx :
    exIwNc.metaRecord.dst_strides = ⟨6, 6, 2, 1⟩
  ∧ exIwNc.dst.view.strides = [1, 3]
  ∧ exIwNc.metaRecord.dst_strides.toList.drop (4 - exIwNc.dst.view.strides.length)
      ≠ exIwNc.dst.view.strides := by
  refine ⟨by decide, rfl, by decide⟩

/-- C4 (amended): `IndexWrite::write_metadata` packs a record whose
`dst_strides` lanes are the canonical strides of the destination
*shape* left-padded to rank 4 — these coincide with the destination
tensor's strides only when that view's strides are canonical — whose
`src_numel` equals the source tensor's element count, and whose
`write_start` holds the write offsets right-aligned in 4 unsigned
lanes with leading zeros. -/
theorem write_metadata_fields (iw : IndexWrite) :
    (iw.src.shape.numel < 2 ^ 32 → iw.metaRecord.src_numel = iw.src.shape.numel)
  ∧ (iw.write_start.length ≤ 4 →
      iw.metaRecord.write_start =
        uvec4OfList
          (List.replicate (4 - iw.write_start.length) 0 ++
            iw.write_start.map (· % 2 ^ 32)))
  ∧ (iw.dst.view.strides = stridesFrom iw.dst.shape →
      iw.dst.shape.length ≤ 4 →
      (∀ x ∈ stridesFrom iw.dst.shape, x < 2 ^ 32) →
      iw.dst.shape.prod < 2 ^ 32 →
      iw.metaRecord.dst_strides.toList.drop (4 - iw.dst.shape.length) =
        iw.dst.view.strides) := by
  refine ⟨fun h => ?_, fun h => ?_, fun hcanon hrank hbound hprod => ?_⟩
  · show (iw.src.shape.leftPadTo 1 4).numel % 2 ^ 32 = iw.src.shape.numel
    rw [numel_leftPadTo, Nat.mod_eq_of_lt h]
  · obtain ⟨dst, src, ws⟩ := iw
    rcases ws with _ | ⟨a, _ | ⟨b, _ | ⟨c, _ | ⟨d, _ | ⟨e, tl⟩⟩⟩⟩⟩
    · rfl
    · rfl
    · rfl
    · rfl
    · rfl
    · simp at h
  · have hlen : (List.replicate (4 - iw.dst.shape.length) 1).length =
        4 - iw.dst.shape.length := List.length_replicate _ _
    have hpad : stridesFrom (iw.dst.shape.leftPadTo 1 4) =
        List.replicate (4 - iw.dst.shape.length) iw.dst.shape.prod ++
          stridesFrom iw.dst.shape := by
      rw [Shape.leftPadTo, stridesFrom_replicate_one_append]
    have hlen4 : (stridesFrom (iw.dst.shape.leftPadTo 1 4)).length = 4 := by
      rw [hpad]
      simp only [List.length_append, List.length_replicate, length_stridesFrom]
      omega
    show (uvec4OfList (stridesFrom (iw.dst.shape.leftPadTo 1 4))).toList.drop
        (4 - iw.dst.shape.length) = iw.dst.view.strides
    rw [uvec4OfList_toList _ hlen4, hpad, List.map_append,
      List.drop_left' (by simp), hcanon]
    have : ∀ l : List Nat, (∀ x ∈ l, x < 2 ^ 32) → l.map (· % 2 ^ 32) = l := by
      intro l hl
      induction l with
      | nil => rfl
      | cons x t ih =>
        simp only [List.map_cons, List.cons.injEq]
        exact ⟨Nat.mod_eq_of_lt (hl x (by simp)),
          ih fun y hy => hl y (by simp [hy])⟩
    exact this _ hbound

/-- C4 (witness): the amended metadata record evaluated on the concrete
IndexWrite whose destination has canonical strides — `src_numel` is the
source element count 64, `write_start` is `(0, 0, 2, 0)`, and the
trailing `dst_strides` lanes equal the destination view's strides
`[64, 1]`. -/
theorem write_metadata_fields_witness :
    exIw.metaRecord.src_numel = 64
  ∧ exIw.metaRecord.write_start =
      uvec4OfList
        (List.replicate (4 - exIw.write_start.length) 0 ++
          exIw.write_start.map (· % 2 ^ 32))
  ∧ exIw.metaRecord.dst_strides.toList.drop 2 = [64, 1] := by
  refine ⟨(write_metadata_fields exIw).1 (by decide),
    (write_metadata_fields exIw).2.1 (by decide), ?_⟩
  have h := (write_metadata_fields exIw).2.2 (by decide) (by decide)
    (by decide) (by decide)
  exact h

/-- The byte representation of a slice has length
`len * size_of::<T>()`. -/
theorem byteRepr_length {α : Type} (et : ElemType α) (data : List α) :
    (byteRepr et data).length = data.length * et.size := by
  induction data with
  | nil => simp [byteRepr]
  | cons a t ih =>
    simp only [byteRepr, List.map_cons, List.flatten_cons, List.length_append,
      et.toBytes_length, List.length_cons] at ih ⊢
    rw [ih, Nat.succ_mul, Nat.add_comm]

/-- C6: `CPUBuffer::from_slice(data, shape)` fails fast (the
length-mismatch branch is taken) exactly when
`data.len() != shape.numel()`; under the precondition the constructed
buffer holds the byte representation of `data`, has byte length
`data.len() * size_of::<T>()`, and uses `align_of::<T>()`. -/
theorem from_slice_spec {α : Type} (et : ElemType α) (data : List α) (shape : Shape) :
    (data.length ≠ shape.numel → CPUBuffer.from_slice et data shape = none)
  ∧ (data.length = shape.numel →
      ∃ buf, CPUBuffer.from_slice et data shape = some buf
        ∧ buf.bytes = byteRepr et data
        ∧ buf.bytes.length = data.length * et.size
        ∧ buf.alignment = et.align) := by
  constructor
  · intro h
    simp [CPUBuffer.from_slice, h]
  · intro h
    refine ⟨CPUBuffer.from_bytes (byteRepr et data) et.align, ?_, rfl,
      byteRepr_length et data, rfl⟩
    simp [CPUBuffer.from_slice, h]

/-- A concrete element type for the witness: 4-byte unsigned integers
in little-endian byte order. -/
def exByteET : ElemType Nat :=
  ⟨4, 4,
   fun n => [n % 256, n / 256 % 256, n / 2 ^ 16 % 256, n / 2 ^ 24 % 256],
   fun _ => rfl⟩

/-- C6 (witness): `from_slice` on one element against a 2-element shape
takes the mismatch branch; on two elements it builds the 8-byte
buffer. -/
theorem from_slice_spec_witness :
    CPUBuffer.from_slice exByteET [5] [2] = none
  ∧ ∃ buf, CPUBuffer.from_slice exByteET [5, 7] [2] = some buf
      ∧ buf.bytes = byteRepr exByteET [5, 7]
      ∧ buf.bytes.length = ([5, 7] : List Nat).length * exByteET.size
      ∧ buf.alignment = exByteET.align := by
  exact ⟨(from_slice_spec exByteET [5] [2]).1 (by decide),
    (from_slice_spec exByteET [5, 7] [2]).2 rfl⟩

/-- A second `get_or_create` with the same descriptor returns the same
handle from the same pool without invoking the factory. -/
theorem getOrCreate_stable {κ ρ : Type} [DecidableEq κ]
    (pool : StaticResourcePool κ ρ) (desc : κ) (factory : κ → ρ) :
    ((pool.getOrCreate desc factory).2.1.getOrCreate desc factory).1 =
      (pool.getOrCreate desc factory).1
  ∧ ((pool.getOrCreate desc factory).2.1.getOrCreate desc factory).2.2 = false
  ∧ ((pool.getOrCreate desc factory).2.1.getOrCreate desc factory).2.1 =
      (pool.getOrCreate desc factory).2.1 := by
  rcases h : pool.lookup.find? (fun e => e.1 = desc) with _ | e
  · have h2 : (pool.lookup ++ [(desc, pool.resources.length)]).find?
        (fun e => e.1 = desc) = some (desc, pool.resources.length) := by
      rw [List.find?_append, h]
      simp
    simp [StaticResourcePool.getOrCreate, h, h2]
  · simp [StaticResourcePool.getOrCreate, h]

/-- C7: calling `ComputePipelinePool::get_or_create` twice with the
same descriptor returns identical handles; the second call returns the
stored pipeline (the factory is not invoked again) and leaves the pool
unchanged, so the factory runs at most once per descriptor. -/
theorem pipeline_pool_get_or_create_idempotent (env : Env)
    (pool : ComputePipelinePool) (desc : ComputePipelineDescriptor) :
    (ComputePipelinePool.get_or_create env
        (ComputePipelinePool.get_or_create env pool desc).2.1 desc).1 =
      (ComputePipelinePool.get_or_create env pool desc).1
  ∧ (ComputePipelinePool.get_or_create env
        (ComputePipelinePool.get_or_create env pool desc).2.1 desc).2.2 = false
  ∧ (ComputePipelinePool.get_or_create env
        (ComputePipelinePool.get_or_create env pool desc).2.1 desc).2.1 =
      (ComputePipelinePool.get_or_create env pool desc).2.1 :=
  getOrCreate_stable pool desc (pipelineFactory env)

/-- C8: in `ComputePipelinePool::get_or_create`, the shader module is
compiled with validation exactly when the `RATCHET_CHECKED` environment
variable is present, and unchecked (the default) exactly when it is
absent; the descriptor has no influence on the choice, and a factory
invocation stores exactly the pipeline so compiled. -/
theorem pipeline_checked_iff_env_flag (env : Env) (pool : ComputePipelinePool)
    (desc : ComputePipelineDescriptor) :
    ((pipelineFactory env desc).checkedModule = (env "RATCHET_CHECKED").isSome)
  ∧ (∀ d2, (pipelineFactory env desc).checkedModule =
      (pipelineFactory env d2).checkedModule)
  ∧ ((ComputePipelinePool.get_or_create env pool desc).2.2 = true →
      (ComputePipelinePool.get_or_create env pool desc).2.1.resources =
        pool.resources ++ [pipelineFactory env desc]) := by
  refine ⟨?_, fun d2 => ?_, fun hinv => ?_⟩
  · rcases h : (env "RATCHET_CHECKED").isSome with _ | _ <;>
      simp [pipelineFactory, h]
  · rcases h : (env "RATCHET_CHECKED").isSome with _ | _ <;>
      simp [pipelineFactory, h]
  · rcases h : pool.lookup.find? (fun e => e.1 = desc) with _ | e
    · simp [ComputePipelinePool.get_or_create, StaticResourcePool.getOrCreate, h]
    · simp [ComputePipelinePool.get_or_create, StaticResourcePool.getOrCreate,
        h] at hinv

/-- An environment with `RATCHET_CHECKED` set. -/
def exEnvChecked : Env := fun k => if k = "RATCHET_CHECKED" then some "1" else none

/-- An empty compute-pipeline pool. -/
def exEmptyPool : ComputePipelinePool := ⟨[], []⟩

/-- A concrete pipeline descriptor. -/
def exDesc : ComputePipelineDescriptor := ⟨0, "index_write_scalar", .scalar⟩

/-- C8 (witness): with `RATCHET_CHECKED` set, the factory compiles the
module checked; a creating call against the empty pool stores exactly
that pipeline. -/
theorem pipeline_checked_iff_env_flag_witness :
    (pipelineFactory exEnvChecked exDesc).checkedModule = true
  ∧ (ComputePipelinePool.get_or_create exEnvChecked exEmptyPool exDesc).2.1.resources =
      exEmptyPool.resources ++ [pipelineFactory exEnvChecked exDesc] := by
  refine ⟨?_, (pipeline_checked_iff_env_flag exEnvChecked exEmptyPool exDesc).2.2 rfl⟩
  have h := (pipeline_checked_iff_env_flag exEnvChecked exEmptyPool exDesc).1
  rw [h]
  rfl

/-- C5: `Tensor::to(device)` — a transfer inside the same device class
returns the tensor unchanged with the state untouched (no copy); an
unresolved tensor transfer returns the tensor itself with no work; and
a device-crossing transfer of a resolved tensor (GPU to CPU, or CPU to
GPU) returns a new tensor whose op is `Const`, whose `StorageView`
equals the original's, and whose device is the destination device. -/
theorem to_device_transfer_spec (t : Tensor) (dev : Device) (s : StorageState)
    (freshId : Nat) :
    ((t.device.is_cpu = true ∧ dev.is_cpu = true) ∨
        (t.device.is_gpu = true ∧ dev.is_gpu = true) →
      t.to dev s freshId = .ok (t, s))
  ∧ (t.resolvedIn s = false → t.to dev s freshId = .ok (t, s))
  ∧ (∀ hdl bytes align, t.device = .gpu hdl → s t.id = some (.gpu bytes align) →
      ∃ t2 s2, t.to .cpu s freshId = .ok (t2, s2)
        ∧ t2.op = .const ∧ t2.view = t.view ∧ t2.device = .cpu)
  ∧ (∀ hdl buf, t.device = .cpu → s t.id = some (.cpu buf) →
      ∃ t2 s2, t.to (.gpu hdl) s freshId = .ok (t2, s2)
        ∧ t2.op = .const ∧ t2.view = t.view ∧ t2.device = .gpu hdl) := by
  refine ⟨fun h => ?_, fun h => ?_,
    fun hdl bytes align hdev hst => ?_, fun hdl buf hdev hst => ?_⟩
  · rcases h with ⟨h1, h2⟩ | ⟨h1, h2⟩
    · rcases ht : t.device with _ | hd <;> rcases hd2 : dev with _ | hd
      · simp [Tensor.to, ht]
      · rw [hd2] at h2; exact absurd h2 (by simp [Device.is_cpu])
      · rw [ht] at h1; exact absurd h1 (by simp [Device.is_cpu])
      · rw [ht] at h1; exact absurd h1 (by simp [Device.is_cpu])
    · rcases ht : t.device with _ | hd <;> rcases hd2 : dev with _ | hd
      · rw [ht] at h1; exact absurd h1 (by simp [Device.is_gpu])
      · rw [ht] at h1; exact absurd h1 (by simp [Device.is_gpu])
      · rw [hd2] at h2; exact absurd h2 (by simp [Device.is_gpu])
      · simp [Tensor.to, ht]
  · rcases ht : t.device with _ | hd <;> rcases hd2 : dev with _ | hd
    · simp [Tensor.to, ht]
    · simp [Tensor.to, Tensor.to_gpu, ht, h]
    · simp [Tensor.to, Tensor.to_cpu, ht, h]
    · simp [Tensor.to, ht]
  · refine ⟨Tensor.mk freshId .const t.view .cpu,
      updateState s freshId (.cpu ⟨bytes, align⟩), ?_, rfl, rfl, rfl⟩
    have hres : t.resolvedIn s = true := by
      simp [Tensor.resolvedIn, hst]
    simp [Tensor.to, Tensor.to_cpu, hdev, hres, Device.is_cpu, hst]
  · refine ⟨Tensor.mk freshId .const t.view (.gpu hdl),
      updateState s freshId (.gpu buf.bytes buf.alignment), ?_, rfl, rfl, rfl⟩
    have hres : t.resolvedIn s = true := by
      simp [Tensor.resolvedIn, hst]
    simp [Tensor.to, Tensor.to_gpu, hdev, hres, Device.is_gpu, hst]

/-- A resolved GPU Const tensor (id 40) for the transfer and clone
witnesses. -/
def exGpuT : Tensor := .mk 40 .const exView (.gpu 0)

/-- A state resolving `exGpuT` with a 4-byte GPU buffer. -/
def exGpuState : StorageState :=
  fun i => if i = 40 then some (.gpu [1, 2, 3, 4] 4) else none

/-- An unresolved tensor (id 50) on the GPU. -/
def exUnres : Tensor := .mk 50 (.binary exGpuT exGpuT .add) exView (.gpu 0)

/-- C5 (witness): transfers evaluated concretely — GPU→GPU is the
identity, an unresolved transfer returns the tensor itself, and a
resolved GPU→CPU transfer yields a `Const` tensor on the CPU with the
same view. -/
theorem to_device_transfer_spec_witness :
    exGpuT.to (.gpu 7) exGpuState 99 = .ok (exGpuT, exGpuState)
  ∧ exUnres.to .cpu exGpuState 99 = .ok (exUnres, exGpuState)
  ∧ ∃ t2 s2, exGpuT.to .cpu exGpuState 99 = .ok (t2, s2)
      ∧ t2.op = .const ∧ t2.view = exGpuT.view ∧ t2.device = .cpu := by
  refine ⟨(to_device_transfer_spec exGpuT (.gpu 7) exGpuState 99).1
      (Or.inr ⟨rfl, rfl⟩),
    (to_device_transfer_spec exUnres .cpu exGpuState 99).2.1 (by decide),
    (to_device_transfer_spec exGpuT .cpu exGpuState 99).2.2.1 0 [1, 2, 3, 4] 4
      rfl (by decide)⟩

/-- C10: `Tensor::deep_clone` panics (rather than returning a typed
error) on every tensor whose storage slot is `None`; on a resolved
tensor it returns a new tensor with op `Const`, the same device, an
equal `StorageView`, and a freshly allocated storage whose bytes equal
the original's. -/
theorem deep_clone_spec (t : Tensor) (s : StorageState) (freshId : Nat) :
    (s t.id = none → t.deep_clone s freshId = none)
  ∧ (∀ st, s t.id = some st →
      ∃ t2 s2, t.deep_clone s freshId = some (t2, s2)
        ∧ t2.op = .const ∧ t2.device = t.device ∧ t2.view = t.view
        ∧ s2 t2.id = some st.deep_clone
        ∧ st.deep_clone.bytes = st.bytes) := by
  refine ⟨fun h => ?_, fun st hst => ?_⟩
  · simp [Tensor.deep_clone, h]
  · refine ⟨Tensor.mk freshId .const t.view t.device,
      updateState s freshId st.deep_clone, ?_, rfl, rfl, rfl, ?_, ?_⟩
    · simp [Tensor.deep_clone, hst]
    · simp [Tensor.id, updateState]
    · cases st <;> rfl

/-- C10 (witness): deep-cloning the unresolved tensor panics;
deep-cloning the resolved GPU tensor yields a `Const` tensor on the
same device whose fresh storage holds the original bytes. -/
theorem deep_clone_spec_witness :
    exUnres.deep_clone exGpuState 99 = none
  ∧ ∃ t2 s2, exGpuT.deep_clone exGpuState 99 = some (t2, s2)
      ∧ t2.op = .const ∧ t2.device = exGpuT.device ∧ t2.view = exGpuT.view
      ∧ s2 t2.id = some (Storage.gpu [1, 2, 3, 4] 4).deep_clone
      ∧ (Storage.gpu [1, 2, 3, 4] 4).deep_clone.bytes =
          (Storage.gpu [1, 2, 3, 4] 4).bytes := by
  exact ⟨(deep_clone_spec exUnres exGpuState 99).1 (by decide),
    (deep_clone_spec exGpuT exGpuState 99).2 (Storage.gpu [1, 2, 3, 4] 4)
      (by decide)⟩

/-- A node that is already resolved is left untouched by the resolve
loop body. -/
theorem resolveNode_of_resolved (alloc : Nat → Option (List Nat))
    (s : StorageState) (t : Tensor) (h : t.resolvedIn s = true) :
    resolveNode alloc s t = .ok (s, false) := by
  simp [resolveNode, h]

/-- A successful resolve-loop body resolves its node and never
unresolves any other node. -/
theorem resolveNode_isSome (alloc : Nat → Option (List Nat)) (s : StorageState)
    (t : Tensor) (s2 : StorageState) (wrote : Bool)
    (h : resolveNode alloc s t = .ok (s2, wrote)) :
    (s2 t.id).isSome = true ∧ ∀ j, (s j).isSome = true → (s2 j).isSome = true := by
  rcases hres : t.resolvedIn s with _ | _
  · rcases halloc : alloc t.id with _ | bytes
    · simp [resolveNode, hres, halloc] at h
    · rcases hgpu : t.device.is_gpu with _ | _
      · simp [resolveNode, hres, halloc, hgpu] at h
      · simp only [resolveNode, hres, halloc, hgpu, Bool.false_eq_true, if_false,
          Bool.not_true, OpResult.ok.injEq, Prod.mk.injEq] at h
        rcases h with ⟨h1, _⟩
        subst h1
        constructor
        · simp [updateState]
        · intro j hj
          simp only [updateState]
          split
          · rfl
          · exact hj
  · rw [resolveNode_of_resolved alloc s t hres] at h
    rcases h with ⟨⟩
    exact ⟨hres, fun j hj => hj⟩

/-- A successful resolve loop resolves every node of the sequence and
never unresolves a node. -/
theorem resolveFold_resolves (alloc : Nat → Option (List Nat)) :
    ∀ (order : List Tensor) (s : StorageState) (w : List Nat) (c : Nat)
      (s2 : StorageState) (w2 : List Nat) (c2 : Nat),
      resolveFold alloc order s w c = .ok (s2, w2, c2) →
      (∀ j, (s j).isSome = true → (s2 j).isSome = true)
      ∧ (∀ t ∈ order, t.resolvedIn s2 = true)
  | [], s, w, c, s2, w2, c2, hok => by
    simp only [resolveFold, OpResult.ok.injEq, Prod.mk.injEq] at hok
    rcases hok with ⟨h1, _⟩
    subst h1
    exact ⟨fun j hj => hj, by simp⟩
  | t :: rest, s, w, c, s2, w2, c2, hok => by
    rcases hn : resolveNode alloc s t with ⟨s1, wrote⟩ | m | m
    · rw [resolveFold, hn] at hok
      have ih := resolveFold_resolves alloc rest s1
        (if wrote then w ++ [t.id] else w)
        (c + if compilesToOp t then 1 else 0) s2 w2 c2 hok
      have hnode := resolveNode_isSome alloc s t s1 wrote hn
      refine ⟨fun j hj => ih.1 j (hnode.2 j hj), fun u hu => ?_⟩
      rcases List.mem_cons.mp hu with hu | hu
      · subst hu
        exact ih.1 u.id hnode.1
      · exact ih.2 u hu
    · rw [resolveFold, hn] at hok
      rcases hok with ⟨⟩
    · rw [resolveFold, hn] at hok
      rcases hok with ⟨⟩

/-- The resolve loop over a sequence whose nodes are all already
resolved: no storage slot is written, the state is unchanged, and the
compiled-op count still grows by one per non-Const node. -/
theorem resolveFold_all_resolved (alloc : Nat → Option (List Nat)) :
    ∀ (order : List Tensor) (s : StorageState) (w : List Nat) (c : Nat),
      (∀ t ∈ order, t.resolvedIn s = true) →
      resolveFold alloc order s w c = .ok (s, w, c + order.countP compilesToOp)
  | [], s, w, c, _ => by simp [resolveFold]
  | t :: rest, s, w, c, h => by
    have hn := resolveNode_of_resolved alloc s t (h t (by simp))
    have ih := resolveFold_all_resolved alloc rest s w
      (c + if compilesToOp t then 1 else 0) (fun u hu => h u (by simp [hu]))
    rw [resolveFold, hn]
    show resolveFold alloc rest s w (c + if compilesToOp t then 1 else 0) =
      OpResult.ok (s, w, c + List.countP compilesToOp (t :: rest))
    rw [ih]
    have harith : c + (if compilesToOp t then 1 else 0) +
        List.countP compilesToOp rest = c + List.countP compilesToOp (t :: rest) := by
      cases hc : compilesToOp t <;> simp [List.countP_cons, hc]
      omega
    rw [harith]

/-- C2 (counterexample): after the first resolve of the one-op graph
`a + b` (state `exState1`), a second `resolve` of the same root writes
no storage slot and leaves the state unchanged, but it still produces
(and hence dispatches) `1 ≠ 0` compiled ops — the second call is not a
no-op. -/
theorem resolve_second_call_dispatches_again_cx :
    Tensor.resolve exAlloc exState1 exSum = .ok (exState1, [], 1)
  ∧ (1 : Nat) ≠ 0 :=
  ⟨rfl, by decide⟩

/-- C2 (amended): after a first successful `resolve` of a root on a GPU
device, every node of the execution order is resolved, and a second
`resolve` of the same root writes no storage slot and returns the state
unchanged — but it compiles (and dispatches) one op per non-Const node
again, rather than doing no compute work. -/
theorem resolve_storage_idempotent_but_recompiles
    (alloc : Nat → Option (List Nat)) (root : Tensor) (hdl : Nat)
    (s s1 : StorageState) (w : List Nat) (c : Nat)
    (hdev : root.device = .gpu hdl)
    (h1 : root.resolve alloc s = .ok (s1, w, c)) :
    (∀ t ∈ root.execution_order, t.resolvedIn s1 = true)
  ∧ root.resolve alloc s1 =
      .ok (s1, [], (root.execution_order).countP compilesToOp) := by
  rw [Tensor.resolve, hdev] at h1
  have hres := (resolveFold_resolves alloc root.execution_order s [] 0 s1 w c h1).2
  refine ⟨hres, ?_⟩
  rw [Tensor.resolve, hdev,
    resolveFold_all_resolved alloc root.execution_order s1 [] 0 hres,
    Nat.zero_add]

/-- C2 (witness): the amended statement applied to the concrete one-op
graph `a + b` after its first resolve. -/
theorem resolve_storage_idempotent_but_recompiles_witness :
    (∀ t ∈ exSum.execution_order, t.resolvedIn exState1 = true)
  ∧ exSum.resolve exAlloc exState1 =
      .ok (exState1, [], (exSum.execution_order).countP compilesToOp) :=
  resolve_storage_idempotent_but_recompiles exAlloc exSum 0 exState0 exState1
    [12] 1 rfl rfl

end Ratchet
